import Mathlib

/-!
Shallow embedding of the tweet-posting and idempotency/rate-limiting layer of
the gpt-enduser Cloudflare Worker (src/index.ts), together with theorems about
the claims of the specification.

The embedded functions are `postTweet` (src/index.ts:3521-3622), the OAuth 1.0a
signature construction it contains, `markMentionAsReplied`
(src/index.ts:3498-3516), the already-replied filter of `getRecentMentions`
(src/index.ts:3333-3342), and the posting tail of `replyToMention`
(src/index.ts:3477-3487).

External primitives (the Workers KV namespace, `crypto.subtle` digests and
HMAC, `fetch`, `Date.now`, and the random nonce) are modelled as explicit
state and as opaque function fields of `PostEnv`; every store read, store
write and network call is additionally recorded in an event trace so that
ordering and frame properties can be stated.
-/

namespace GptEnduser

/-! ## Key-value store (Workers KV abstraction) -/

/-- One entry of the key-value store: key, value, and the `expirationTtl`
in seconds that was passed to `put` (none when no TTL was given). -/
structure StoreEntry where
  key : String
  value : String
  ttl : Option Nat
  deriving DecidableEq

/-- The KV store. `put` places the new entry in front, `get` returns the
first match, so a later `put` overwrites an earlier one. -/
abbrev Store := List StoreEntry

def Store.get (s : Store) (k : String) : Option String :=
  (s.find? (fun e => e.key == k)).map (fun e => e.value)

def Store.put (s : Store) (k v : String) (ttl : Option Nat) : Store :=
  ⟨k, v, ttl⟩ :: s

/-- JS truthiness of a nullable string (`if (x)`): null and the empty
string are falsy. -/
def jsTruthy : Option String → Bool
  | none => false
  | some s => s != ""

/-! ## JS number helpers -/

/-- Digits of a decimal numeral to its value. -/
def digitsToNat (ds : List Char) : Nat :=
  ds.foldl (fun a c => a * 10 + (c.toNat - 48)) 0

def isJsSpace (c : Char) : Bool :=
  c = ' ' || c = '\t' || c = '\n' || c = '\r' || c.toNat = 11 || c.toNat = 12

/-- JS `parseInt(s)` modelled on base-10 inputs (the only values the worker
ever stores at the keys it parses: `Date.now().toString()` images).
Leading whitespace is skipped, an optional sign and a longest digit run are
read; no digits gives NaN, modelled as `none`. Hex `0x` prefixes are not
modelled. -/
def parseIntJS (s : String) : Option Int :=
  let cs := s.toList.dropWhile isJsSpace
  match cs with
  | '-' :: rest =>
    let ds := rest.takeWhile Char.isDigit
    if ds.isEmpty then none else some (-(digitsToNat ds : Int))
  | '+' :: rest =>
    let ds := rest.takeWhile Char.isDigit
    if ds.isEmpty then none else some ((digitsToNat ds : Int))
  | _ =>
    let ds := cs.takeWhile Char.isDigit
    if ds.isEmpty then none else some ((digitsToNat ds : Int))

/-- Models `Math.ceil(a / b)` for integers `a` and positive `b` (exact for the
magnitudes the worker uses). -/
def ceilDivInt (a b : Int) : Int := -((-a).fdiv b)

/-! ## JS encodeURIComponent -/

/-- Uppercase hex digit, as produced by percent-escapes of
`encodeURIComponent`. -/
def hexDigitUpper (n : Nat) : Char :=
  if n < 10 then Char.ofNat (48 + n) else Char.ofNat (55 + n)

/-- Lowercase hex digit, as produced by `JSON.stringify` unicode escapes. -/
def hexDigitLower (n : Nat) : Char :=
  if n < 10 then Char.ofNat (48 + n) else Char.ofNat (87 + n)

/-- UTF-8 bytes of a code point. -/
def utf8Bytes (n : Nat) : List Nat :=
  if n < 128 then [n]
  else if n < 2048 then [192 + n / 64, 128 + n % 64]
  else if n < 65536 then [224 + n / 4096, 128 + n / 64 % 64, 128 + n % 64]
  else [240 + n / 262144, 128 + n / 4096 % 64, 128 + n / 64 % 64, 128 + n % 64]

def percentByte (b : Nat) : String :=
  String.mk ['%', hexDigitUpper (b / 16), hexDigitUpper (b % 16)]

/-- The set ECMA-262 `encodeURIComponent` leaves unescaped: ASCII letters,
digits, and `- _ . ! ~ * ' ( )` (the `uriMark` characters; 39 is the
apostrophe). -/
def isUriUnescapedJS (c : Char) : Bool :=
  c.isAlpha || c.isDigit || c = '-' || c = '_' || c = '.' || c = '!' ||
    c = '~' || c = '*' || c.toNat = 39 || c = '(' || c = ')'

/-- JS `encodeURIComponent`, the percent-encoding function the worker uses
for every part of the OAuth signature construction. -/
def encodeURIComponent (s : String) : String :=
  String.join (s.toList.map (fun c =>
    if isUriUnescapedJS c then String.singleton c
    else String.join ((utf8Bytes c.toNat).map percentByte)))

/-- Modelled from the spec: the RFC 3986 unreserved URI characters —
letters, digits, `-`, `.`, `_`, `~` — the set the spec says the encoder
must leave unescaped (and must escape everything else). -/
def unreservedPerSpec (c : Char) : Bool :=
  c.isAlpha || c.isDigit || c = '-' || c = '.' || c = '_' || c = '~'

/-! ## JSON string/array codec (JSON.stringify / JSON.parse fragment) -/

/-- The `JSON.stringify` escaping of one character of a string value. -/
def jsonEscapeChar (c : Char) : String :=
  if c = '"' then "\\\""
  else if c = '\\' then "\\\\"
  else if c = '\n' then "\\n"
  else if c = '\r' then "\\r"
  else if c = '\t' then "\\t"
  else if c.toNat = 8 then "\\b"
  else if c.toNat = 12 then "\\f"
  else if c.toNat < 32 then
    String.mk ['\\', 'u', '0', '0', hexDigitLower (c.toNat / 16), hexDigitLower (c.toNat % 16)]
  else String.singleton c

/-- Image of a string value under `JSON.stringify`. -/
def jsonString (s : String) : String :=
  "\"" ++ String.join (s.toList.map jsonEscapeChar) ++ "\""

/-- Image of an array of strings under `JSON.stringify`. -/
def jsonStringArray (xs : List String) : String :=
  "[" ++ String.intercalate "," (xs.map jsonString) ++ "]"

def hexVal (c : Char) : Option Nat :=
  if '0' ≤ c ∧ c ≤ '9' then some (c.toNat - 48)
  else if 'a' ≤ c ∧ c ≤ 'f' then some (c.toNat - 87)
  else if 'A' ≤ c ∧ c ≤ 'F' then some (c.toNat - 55)
  else none

/-- Parse a JSON string body (after the opening quote): returns the decoded
characters and the input remaining after the closing quote. -/
def parseStrChars : List Char → Option (List Char × List Char)
  | [] => none
  | '"' :: rest => some ([], rest)
  | '\\' :: 'u' :: h1 :: h2 :: h3 :: h4 :: rest =>
    match hexVal h1, hexVal h2, hexVal h3, hexVal h4 with
    | some a, some b, some c, some d =>
      match parseStrChars rest with
      | some (cs, rem) => some (Char.ofNat (((a * 16 + b) * 16 + c) * 16 + d) :: cs, rem)
      | none => none
    | _, _, _, _ => none
  | '\\' :: c :: rest =>
    match (if c = '"' then some '"'
           else if c = '\\' then some '\\'
           else if c = '/' then some '/'
           else if c = 'n' then some '\n'
           else if c = 't' then some '\t'
           else if c = 'r' then some '\r'
           else if c = 'b' then some (Char.ofNat 8)
           else if c = 'f' then some (Char.ofNat 12)
           else none) with
    | some d =>
      match parseStrChars rest with
      | some (cs, rem) => some (d :: cs, rem)
      | none => none
    | none => none
  | c :: rest =>
    match parseStrChars rest with
    | some (cs, rem) => some (c :: cs, rem)
    | none => none

/-- Parse the items of a non-empty JSON string array, after the opening
bracket. Fuel bounds the recursion by the input length. -/
def parseItemsAux : Nat → List Char → Option (List String)
  | 0, _ => none
  | fuel + 1, '"' :: rest =>
    match parseStrChars rest with
    | none => none
    | some (cs, rem) =>
      match rem with
      | [']'] => some [String.mk cs]
      | ',' :: more =>
        match parseItemsAux fuel more with
        | some tail => some (String.mk cs :: tail)
        | none => none
      | _ => none
  | _, _ => none

/-- Models `JSON.parse` on the canonical images of `jsonStringArray`
(the only values the worker ever stores at the key it parses); anything
else is a parse failure (`none`), which the worker's `catch` turns into a
no-op. -/
def jsonParseStringArray (s : String) : Option (List String) :=
  match s.toList with
  | ['[', ']'] => some []
  | '[' :: rest => parseItemsAux (rest.length + 1) rest
  | _ => none

/-! ## Post result, HTTP response, event trace, environment -/

/-- The result record `postTweet` returns:
`{ ok, status, body, error? }`. -/
structure PostResult where
  ok : Bool
  status : Nat
  body : String
  error : Option String
  deriving DecidableEq

/-- An upstream HTTP response as seen through `fetch`: status and body;
`res.ok` is derived (status in 200..299). -/
structure HttpResponse where
  status : Nat
  body : String
  deriving DecidableEq

def HttpResponse.ok (r : HttpResponse) : Bool :=
  200 ≤ r.status && r.status < 300

/-- Observable actions of one `postTweet` invocation, in order: KV reads
(with the value read), KV writes (with the TTL), and the outbound network
call (url, Authorization header, JSON body). -/
inductive Event where
  | get (key : String) (result : Option String)
  | put (key value : String) (ttl : Option Nat)
  | net (url authHeader body : String)
  deriving DecidableEq

def Event.isNet : Event → Bool
  | .net _ _ _ => true
  | _ => false

/-- The ambient environment of one invocation: the clock, the outputs of the
external crypto primitives, the random nonce drawn by `randomHex(16)`, the
OAuth credentials from `env`, and the network. `Date.now()` is modelled as
constant within a single invocation. `sha256Hex` stands for the hex digest
of `crypto.subtle.digest('SHA-256', utf8 text)`; `hmacSha1Base64` for the
worker's function of the same name (`crypto.subtle` HMAC-SHA1, base64);
`fetch` maps (url, Authorization header, body) to the upstream response. -/
structure PostEnv where
  nowMs : Int
  nowISO : String
  sha256Hex : String → String
  hmacSha1Base64 : String → String → String
  nonce : String
  apiKey : String
  apiSecret : String
  accessToken : String
  accessSecret : String
  fetch : String → String → String → HttpResponse

/-- Outcome of one `postTweet` invocation: the returned result, the store
after the invocation, and the trace of observable actions. -/
structure PostOutcome where
  result : PostResult
  store : Store
  trace : List Event
  deriving DecidableEq

/-! ## OAuth 1.0a signature construction (src/index.ts:3551-3589) -/

def tweetUrl : String := "https://api.twitter.com/2/tweets"

/-- The `oauthParams` object literal: key/value pairs in source order. -/
def oauthParamsList (env : PostEnv) : List (String × String) :=
  [("oauth_consumer_key", env.apiKey),
   ("oauth_nonce", env.nonce),
   ("oauth_signature_method", "HMAC-SHA1"),
   ("oauth_timestamp", toString (env.nowMs.fdiv 1000)),
   ("oauth_token", env.accessToken),
   ("oauth_version", "1.0")]

/-- Lookup `paramsForSig[k]`. -/
def lookupParam (ps : List (String × String)) (k : String) : String :=
  match ps.find? (fun p => p.1 == k) with
  | some p => p.2
  | none => ""

/-- Lexicographic order on code points — the order of the default
`Array.prototype.sort()` comparator for the ASCII strings sorted here
(code-unit and code-point order agree on ASCII). -/
def listLeChars : List Char → List Char → Bool
  | [], _ => true
  | _ :: _, [] => false
  | a :: as, b :: bs =>
    if a.toNat < b.toNat then true
    else if b.toNat < a.toNat then false
    else listLeChars as bs

def strLeJS (a b : String) : Bool := listLeChars a.toList b.toList

def insertSorted (s : String) : List String → List String
  | [] => [s]
  | t :: ts => if strLeJS s t then s :: t :: ts else t :: insertSorted s ts

/-- Models `Array.prototype.sort()` on strings (insertion sort; the order, which
is all that matters, agrees with the JS sort). -/
def sortStrings : List String → List String
  | [] => []
  | s :: ss => insertSorted s (sortStrings ss)

/-- The canonical parameter string `Object.keys(paramsForSig).sort().map(k => enc(k)+"="+enc(v)).join("&")`. -/
def paramString (env : PostEnv) : String :=
  String.intercalate "&"
    ((sortStrings ((oauthParamsList env).map Prod.fst)).map
      (fun k => encodeURIComponent k ++ "=" ++
        encodeURIComponent (lookupParam (oauthParamsList env) k)))

/-- The signature base string `["POST", enc(url), enc(paramString)].join("&")`. -/
def baseString (env : PostEnv) : String :=
  String.intercalate "&" ["POST", encodeURIComponent tweetUrl,
    encodeURIComponent (paramString env)]

/-- The signing key `enc(TWITTER_API_SECRET) + "&" + enc(TWITTER_ACCESS_SECRET)`. -/
def signingKey (env : PostEnv) : String :=
  encodeURIComponent env.apiSecret ++ "&" ++ encodeURIComponent env.accessSecret

/-- The signature `await hmacSha1Base64(signingKey, baseString)`. -/
def oauthSignature (env : PostEnv) : String :=
  env.hmacSha1Base64 (signingKey env) (baseString env)

/-- The `Authorization` header: `"OAuth "` followed by the listed pairs
rendered `k="v"` with both sides percent-encoded, joined by `", "`. -/
def authHeader (env : PostEnv) : String :=
  "OAuth " ++ String.intercalate ", "
    (([("oauth_consumer_key", env.apiKey),
       ("oauth_nonce", env.nonce),
       ("oauth_signature", oauthSignature env),
       ("oauth_signature_method", "HMAC-SHA1"),
       ("oauth_timestamp", toString (env.nowMs.fdiv 1000)),
       ("oauth_token", env.accessToken),
       ("oauth_version", "1.0")]).map
      (fun p => encodeURIComponent p.1 ++ "=\"" ++ encodeURIComponent p.2 ++ "\""))

/-- The request body `JSON.stringify(tweetPayload)`: `\x7b"text": ...\x7d`, with a `reply`
object when `replyToTweetId` is present. -/
def tweetPayloadJson (text : String) (replyToTweetId : Option String) : String :=
  match replyToTweetId with
  | none => "\x7b\"text\":" ++ jsonString text ++ "\x7d"
  | some tid =>
    "\x7b\"text\":" ++ jsonString text ++ ",\"reply\":\x7b\"in_reply_to_tweet_id\":" ++
      jsonString tid ++ "\x7d\x7d"

/-! ## postTweet (src/index.ts:3521-3622) -/

def thirtyMinutesMs : Int := 30 * 60 * 1000

/-- The dedup key: `recent_tweet_` + SHA-256 hex of the exact text. -/
def recentTweetKey (env : PostEnv) (text : String) : String :=
  "recent_tweet_" ++ env.sha256Hex text

/-- The rate-limit early return (src/index.ts:3524-3533), given the value
read at `last_tweet_timestamp`: rejects when the value is truthy, parses
to a number, and lies strictly less than 30 minutes before now. -/
def rateLimitRejection (nowMs : Int) (lastTweetTime : Option String) : Option PostResult :=
  match lastTweetTime with
  | none => none
  | some s =>
    if s = "" then none
    else
      match parseIntJS s with
      | none => none
      | some t =>
        let timeSinceLastTweet := nowMs - t
        if timeSinceLastTweet < thirtyMinutesMs then
          let minutesRemaining := ceilDivInt (thirtyMinutesMs - timeSinceLastTweet) 60000
          some ⟨false, 429,
            "Rate limited - " ++ toString minutesRemaining ++ " minutes remaining",
            some "Rate limited"⟩
        else none

/-- Embeds `postTweet(env, text, replyToTweetId?)` (src/index.ts:3521-3622),
translated branch by branch: the non-reply rate-limit gate, the dedup
lookup, the guard write (TTL 7200) before the network call, the OAuth
signing, the fetch, and the success-path timestamp write (TTL 3600,
non-reply only). -/
def postTweet (env : PostEnv) (store : Store) (text : String)
    (replyToTweetId : Option String) : PostOutcome :=
  let rateEvents : List Event :=
    match replyToTweetId with
    | none => [.get "last_tweet_timestamp" (store.get "last_tweet_timestamp")]
    | some _ => []
  let rateReject : Option PostResult :=
    match replyToTweetId with
    | none => rateLimitRejection env.nowMs (store.get "last_tweet_timestamp")
    | some _ => none
  match rateReject with
  | some r => ⟨r, store, rateEvents⟩
  | none =>
    let key := recentTweetKey env text
    let recentTweet := store.get key
    let evs1 := rateEvents ++ [.get key recentTweet]
    if jsTruthy recentTweet then
      ⟨⟨false, 429, "Duplicate tweet prevented", some "Tweet already posted recently"⟩,
        store, evs1⟩
    else
      let store1 := store.put key env.nowISO (some 7200)
      let evs2 := evs1 ++ [.put key env.nowISO (some 7200)]
      let header := authHeader env
      let payload := tweetPayloadJson text replyToTweetId
      let res := env.fetch tweetUrl header payload
      let evs3 := evs2 ++ [.net tweetUrl header payload]
      if !res.ok then
        ⟨⟨false, res.status, res.body, some ("Twitter API error: " ++ toString res.status)⟩,
          store1, evs3⟩
      else
        match replyToTweetId with
        | none =>
          ⟨⟨true, res.status, res.body, none⟩,
            store1.put "last_tweet_timestamp" (toString env.nowMs) (some 3600),
            evs3 ++ [.put "last_tweet_timestamp" (toString env.nowMs) (some 3600)]⟩
        | some _ => ⟨⟨true, res.status, res.body, none⟩, store1, evs3⟩

/-! ## Mention reply bookkeeping (src/index.ts:3333-3342, 3477-3487, 3498-3516) -/

/-- Embeds `markMentionAsReplied` (src/index.ts:3498-3516): read the
`replied_mentions` JSON list (falsy value gives `'[]'`), append the id if
absent, keep only the last 100, and write the list back (no TTL). A parse
failure is swallowed by the surrounding `catch`, leaving the store
untouched. -/
def markMentionAsReplied (store : Store) (mentionId : String) : Store :=
  let raw :=
    match store.get "replied_mentions" with
    | none => "[]"
    | some s => if s = "" then "[]" else s
  match jsonParseStringArray raw with
  | none => store
  | some repliedList =>
    if mentionId ∈ repliedList then store
    else
      let l1 := repliedList ++ [mentionId]
      let l2 := if l1.length > 100 then l1.drop (l1.length - 100) else l1
      store.put "replied_mentions" (jsonStringArray l2) none

/-- The already-replied test `getRecentMentions` applies to each mention
before offering it for reply (src/index.ts:3333-3342): truthiness of the
value at key `replied_to_mention_` + id. -/
def mentionAlreadyHandled (store : Store) (mentionId : String) : Bool :=
  jsTruthy (store.get ("replied_to_mention_" ++ mentionId))

/-- The posting tail of `replyToMention` (src/index.ts:3477-3487): post the
generated reply text threaded to the mention, and on success mark the
mention as replied. The AI text generation above it is an external input. -/
def replyToMention (env : PostEnv) (store : Store) (finalReply : String)
    (mentionId : String) : Bool × Store :=
  let out := postTweet env store finalReply (some mentionId)
  if out.result.ok then (true, markMentionAsReplied out.store mentionId)
  else (false, out.store)

/-- True when the invocation made no network call. -/
def noNetworkCall (o : PostOutcome) : Bool :=
  o.trace.all (fun e => !e.isNet)


/-! ## Sample environments and stores for witnesses and counterexamples -/

/-- Stand-in for the SHA-256 hex digest in concrete runs: any function is
admissible here because the behaviours exercised do not depend on the
digest beyond which guard key is present. -/
def sampleHash : String → String := fun _ => "aa"

/-- Stand-in digest for the mention-reply runs: the identity, standing in
for a digest that is injective on the sample texts (as SHA-256 is at test
scale). -/
def idHash : String → String := fun s => s

def sampleHmac : String → String → String := fun _ _ => "sig"

def fetchCreated : String → String → String → HttpResponse := fun _ _ _ => ⟨201, "created"⟩

def fetchServerError : String → String → String → HttpResponse := fun _ _ _ => ⟨500, "server error"⟩

/-- One second after a successful non-reply post at epoch-millisecond
1000000. Fields: nowMs, nowISO, sha256Hex, hmacSha1Base64, nonce, apiKey,
apiSecret, accessToken, accessSecret, fetch. -/
def envA : PostEnv :=
  ⟨1001000, "2024-01-01T00:00:01.000Z", sampleHash, sampleHmac,
   "0123456789abcdef", "ck", "cs", "at", "as", fetchCreated⟩

/-- Store after that successful post: rate-limit timestamp and the dedup
guard entry for the posted text (whose digest under `sampleHash` is "aa"). -/
def storeA : Store :=
  [⟨"last_tweet_timestamp", "1000000", some 3600⟩,
   ⟨"recent_tweet_aa", "2024-01-01T00:00:00.500Z", some 7200⟩]

/-- Same instant, identity digest stand-in, successful upstream. -/
def envB : PostEnv :=
  ⟨1001000, "2024-01-01T00:00:01.000Z", idHash, sampleHmac,
   "0123456789abcdef", "ck", "cs", "at", "as", fetchCreated⟩

/-- Same instant, failing upstream (HTTP 500). -/
def envF : PostEnv :=
  ⟨1001000, "2024-01-01T00:00:01.000Z", sampleHash, sampleHmac,
   "0123456789abcdef", "ck", "cs", "at", "as", fetchServerError⟩

/-- Same credentials, nonce, timestamp and HMAC as `envA`, but a different
digest function, ISO clock string and network: only fields irrelevant to
the signature differ. -/
def envA2 : PostEnv :=
  ⟨1001000, "2024-06-30T12:00:00.000Z", idHash, sampleHmac,
   "0123456789abcdef", "ck", "cs", "at", "as", fetchServerError⟩

/-- The guard entry alone, with no rate-limit state stored. -/
def storeG : Store := [⟨"recent_tweet_aa", "2024-01-01T00:00:00.500Z", some 7200⟩]

/-- The rate-limit timestamp alone, with no guard entry stored. -/
def storeT : Store := [⟨"last_tweet_timestamp", "1000000", some 3600⟩]

/-- The six OAuth parameter names, in source (= sorted) order. -/
def oauthKeys : List String :=
  ["oauth_consumer_key", "oauth_nonce", "oauth_signature_method",
   "oauth_timestamp", "oauth_token", "oauth_version"]

/-! ## Helper lemmas -/

theorem parseIntJS_empty : parseIntJS "" = none := by decide

theorem recentKey_ne_lastTs (h : String) :
    ("recent_tweet_" ++ h) ≠ "last_tweet_timestamp" := by
  intro e
  have e2 : ("recent_tweet_".data ++ h.data).take 13 = "last_tweet_timestamp".data.take 13 :=
    congrArg (fun l => List.take 13 l) (congrArg String.data e)
  have e3 : ("recent_tweet_".data ++ h.data).take 13 = "recent_tweet_".data := by
    have hl : "recent_tweet_".data.length = 13 := by decide
    rw [← hl, List.take_left]
  rw [e3] at e2
  exact absurd e2 (by decide)

theorem Store.get_put_same (s : Store) (k v : String) (ttl : Option Nat) :
    (s.put k v ttl).get k = some v := by
  simp [Store.get, Store.put, List.find?]

theorem postTweet_rate_reject_eq (env : PostEnv) (store : Store) (text : String)
    (res : PostResult)
    (h : rateLimitRejection env.nowMs (store.get "last_tweet_timestamp") = some res) :
    postTweet env store text none =
      ⟨res, store, [.get "last_tweet_timestamp" (store.get "last_tweet_timestamp")]⟩ := by
  unfold postTweet
  simp [h]

theorem rateLimitRejection_fires (nowMs : Int) (s : String) (t : Int)
    (h2 : parseIntJS s = some t) (h3 : nowMs - t < thirtyMinutesMs) :
    rateLimitRejection nowMs (some s) =
      some ⟨false, 429,
        "Rate limited - " ++ toString (ceilDivInt (thirtyMinutesMs - (nowMs - t)) 60000) ++
          " minutes remaining", some "Rate limited"⟩ := by
  have hs : s ≠ "" := by
    intro he; subst he; rw [parseIntJS_empty] at h2; exact Option.noConfusion h2
  unfold rateLimitRejection
  simp [hs, h2, h3]

theorem rateLimitRejection_ok_false (nowMs : Int) (o : Option String) (res : PostResult)
    (h : rateLimitRejection nowMs o = some res) : res.ok = false := by
  unfold rateLimitRejection at h
  cases o with
  | none => exact Option.noConfusion h
  | some s =>
    by_cases hs : s = ""
    · simp [hs] at h
    · simp [hs] at h
      cases hp : parseIntJS s with
      | none => rw [hp] at h; simp at h
      | some t =>
        rw [hp] at h
        simp at h
        by_cases hlt : nowMs - t < thirtyMinutesMs
        · simp [hlt] at h
          rw [← h]
        · simp [hlt] at h

theorem postTweet_dup_none_eq (env : PostEnv) (store : Store) (text : String)
    (hrate : rateLimitRejection env.nowMs (store.get "last_tweet_timestamp") = none)
    (hdup : jsTruthy (store.get (recentTweetKey env text)) = true) :
    postTweet env store text none =
      ⟨⟨false, 429, "Duplicate tweet prevented", some "Tweet already posted recently"⟩, store,
       [.get "last_tweet_timestamp" (store.get "last_tweet_timestamp"),
        .get (recentTweetKey env text) (store.get (recentTweetKey env text))]⟩ := by
  unfold postTweet
  simp [hrate, hdup]

theorem postTweet_dup_reply_eq (env : PostEnv) (store : Store) (text : String) (tid : String)
    (hdup : jsTruthy (store.get (recentTweetKey env text)) = true) :
    postTweet env store text (some tid) =
      ⟨⟨false, 429, "Duplicate tweet prevented", some "Tweet already posted recently"⟩, store,
       [.get (recentTweetKey env text) (store.get (recentTweetKey env text))]⟩ := by
  unfold postTweet
  simp [hdup]

theorem postTweet_send_none_eq (env : PostEnv) (store : Store) (text : String)
    (hrate : rateLimitRejection env.nowMs (store.get "last_tweet_timestamp") = none)
    (hdup : jsTruthy (store.get (recentTweetKey env text)) = false) :
    postTweet env store text none =
      (let res := env.fetch tweetUrl (authHeader env) (tweetPayloadJson text none)
       let store1 := store.put (recentTweetKey env text) env.nowISO (some 7200)
       let evs := [Event.get "last_tweet_timestamp" (store.get "last_tweet_timestamp"),
                   Event.get (recentTweetKey env text) (store.get (recentTweetKey env text)),
                   Event.put (recentTweetKey env text) env.nowISO (some 7200),
                   Event.net tweetUrl (authHeader env) (tweetPayloadJson text none)]
       if res.ok then
         ⟨⟨true, res.status, res.body, none⟩,
          store1.put "last_tweet_timestamp" (toString env.nowMs) (some 3600),
          evs ++ [Event.put "last_tweet_timestamp" (toString env.nowMs) (some 3600)]⟩
       else
         ⟨⟨false, res.status, res.body, some ("Twitter API error: " ++ toString res.status)⟩,
          store1, evs⟩) := by
  unfold postTweet
  simp [hrate, hdup]
  by_cases hok : (env.fetch tweetUrl (authHeader env) (tweetPayloadJson text none)).ok
  · simp [hok]
  · simp [hok]

theorem postTweet_send_reply_eq (env : PostEnv) (store : Store) (text : String) (tid : String)
    (hdup : jsTruthy (store.get (recentTweetKey env text)) = false) :
    postTweet env store text (some tid) =
      (let res := env.fetch tweetUrl (authHeader env) (tweetPayloadJson text (some tid))
       let store1 := store.put (recentTweetKey env text) env.nowISO (some 7200)
       let evs := [Event.get (recentTweetKey env text) (store.get (recentTweetKey env text)),
                   Event.put (recentTweetKey env text) env.nowISO (some 7200),
                   Event.net tweetUrl (authHeader env) (tweetPayloadJson text (some tid))]
       if res.ok then ⟨⟨true, res.status, res.body, none⟩, store1, evs⟩
       else
         ⟨⟨false, res.status, res.body, some ("Twitter API error: " ++ toString res.status)⟩,
          store1, evs⟩) := by
  unfold postTweet
  simp [hdup]
  by_cases hok : (env.fetch tweetUrl (authHeader env) (tweetPayloadJson text (some tid))).ok
  · simp [hok]
  · simp [hok]


/-! ## Claim theorems -/

/-- Claim C1, counterexample: with the dedup guard entry for the exact text
present in the store (its fingerprint under the ambient digest is "aa")
and a successful non-reply post recorded one second earlier, re-posting
the identical text as a non-reply is rejected `Rate limited`, not as a
duplicate — the rate-limit check runs first, so the rejection kind is not
`duplicate` "regardless of rate-limit state" as claimed. -/
theorem C1_counterexample :
    jsTruthy (storeA.get (recentTweetKey envA "Hello #1")) = true ∧
    (postTweet envA storeA "Hello #1" none).result.error = some "Rate limited" ∧
    (postTweet envA storeA "Hello #1" none).result.error ≠ some "Tweet already posted recently" ∧
    noNetworkCall (postTweet envA storeA "Hello #1" none) = true := by
  decide

/-- Claim C1 as amended: a postTweet call whose text's guard entry is present is
rejected as a duplicate with no network call and an unchanged store
provided the rate-limit check does not fire first: for non-reply calls,
when the stored rate-limit state does not reject; for reply calls,
unconditionally. (A non-reply duplicate inside the 30-minute window is
rejected `Rate limited` instead.) -/
theorem C1_amended_duplicate (env : PostEnv) (store : Store) (text : String)
    (hdup : jsTruthy (store.get (recentTweetKey env text)) = true) :
    (rateLimitRejection env.nowMs (store.get "last_tweet_timestamp") = none →
      (postTweet env store text none).result =
        ⟨false, 429, "Duplicate tweet prevented", some "Tweet already posted recently"⟩ ∧
      (postTweet env store text none).store = store ∧
      noNetworkCall (postTweet env store text none) = true) ∧
    (∀ tid, (postTweet env store text (some tid)).result =
        ⟨false, 429, "Duplicate tweet prevented", some "Tweet already posted recently"⟩ ∧
      (postTweet env store text (some tid)).store = store ∧
      noNetworkCall (postTweet env store text (some tid)) = true) := by
  constructor
  · intro hrate
    rw [postTweet_dup_none_eq env store text hrate hdup]
    exact ⟨rfl, rfl, rfl⟩
  · intro tid
    rw [postTweet_dup_reply_eq env store text tid hdup]
    exact ⟨rfl, rfl, rfl⟩

/-- Witness for claim C1: with no rate-limit state stored, a duplicate non-reply is
rejected as a duplicate. -/
theorem C1_witness :
    jsTruthy (storeG.get (recentTweetKey envA "Hello #1")) = true ∧
    (postTweet envA storeG "Hello #1" none).result =
      ⟨false, 429, "Duplicate tweet prevented", some "Tweet already posted recently"⟩ := by
  refine ⟨by decide, ?_⟩
  exact ((C1_amended_duplicate envA storeG "Hello #1" (by decide)).1 (by decide)).1

/-- Claim C2: the claim that the encoder escapes every character outside the
unreserved set fails — `encodeURIComponent`, used for every part of the
signature construction, leaves `!`, `'`, `(`, `)`, `*` unescaped even
though they are outside the unreserved set; `%` shows escaping does occur
for genuinely escaped characters. -/
theorem C2_encode_bug :
    encodeURIComponent "!" = "!" ∧
    encodeURIComponent "*'()" = "*'()" ∧
    unreservedPerSpec '!' = false ∧
    unreservedPerSpec '*' = false ∧
    encodeURIComponent "%" = "%25" ∧
    encodeURIComponent "a-b.c_d~e" = "a-b.c_d~e" := by
  decide

/-- Claim C3: the claim fails on the code — after a successful reply post to
mention id "123", `markMentionAsReplied` records the id in the
`replied_mentions` list, but the already-replied filter of
`getRecentMentions` consults key `replied_to_mention_123`, which is never
written: the mention is still treated as unhandled, and a second reply
attempt for the same id (with fresh reply text) again reaches the network
and succeeds. -/
theorem C3_filter_never_sees_record :
    (replyToMention envB [] "@u hello" "123").1 = true ∧
    (replyToMention envB [] "@u hello" "123").2.get "replied_mentions" = some "[\"123\"]" ∧
    mentionAlreadyHandled (replyToMention envB [] "@u hello" "123").2 "123" = false ∧
    (replyToMention envB (replyToMention envB [] "@u hello" "123").2 "@u hello again" "123").1
      = true := by
  decide

/-- Claim C5: a non-reply postTweet call strictly inside the 30-minute window
after the stored timestamp returns ok = false, error `Rate limited`, a
body naming the remaining minutes, makes no network call, and leaves the
store unchanged. -/
theorem C5_rate_limited (env : PostEnv) (store : Store) (text : String) (s : String) (t : Int)
    (h1 : store.get "last_tweet_timestamp" = some s)
    (h2 : parseIntJS s = some t)
    (h3 : env.nowMs - t < thirtyMinutesMs) :
    postTweet env store text none =
      ⟨⟨false, 429,
        "Rate limited - " ++ toString (ceilDivInt (thirtyMinutesMs - (env.nowMs - t)) 60000) ++
          " minutes remaining", some "Rate limited"⟩,
       store, [.get "last_tweet_timestamp" (some s)]⟩ := by
  have h := postTweet_rate_reject_eq env store text _
    (by rw [h1]; exact rateLimitRejection_fires env.nowMs s t h2 h3)
  rw [h, h1]

/-- Witness for claim C5: a concrete non-reply attempt one second after the stored
timestamp is rejected with 30 minutes remaining. -/
theorem C5_witness :
    postTweet envA storeA "Hello #2" none =
      ⟨⟨false, 429, "Rate limited - 30 minutes remaining", some "Rate limited"⟩,
       storeA, [.get "last_tweet_timestamp" (some "1000000")]⟩ := by
  have h := C5_rate_limited envA storeA "Hello #2" "1000000" 1000000 (by decide) (by decide)
    (by decide)
  rw [h]
  decide


/-- Claim C6: a reply postTweet call bypasses the rate-limit check entirely:
whatever the stored rate-limit state, if the dedup check passes the call
reaches the network layer, and the rate-limit key is not even read. -/
theorem C6_reply_bypasses_rate (env : PostEnv) (store : Store) (text : String) (tid : String)
    (hdup : jsTruthy (store.get (recentTweetKey env text)) = false) :
    (postTweet env store text (some tid)).trace =
      [.get (recentTweetKey env text) (store.get (recentTweetKey env text)),
       .put (recentTweetKey env text) env.nowISO (some 7200),
       .net tweetUrl (authHeader env) (tweetPayloadJson text (some tid))] ∧
    (∃ e ∈ (postTweet env store text (some tid)).trace, e.isNet = true) ∧
    (∀ o, Event.get "last_tweet_timestamp" o ∉ (postTweet env store text (some tid)).trace) := by
  have hne := (recentKey_ne_lastTs (env.sha256Hex text)).symm
  rw [postTweet_send_reply_eq env store text tid hdup]
  by_cases hok : (env.fetch tweetUrl (authHeader env) (tweetPayloadJson text (some tid))).ok
  · refine ⟨by simp [hok], ⟨.net tweetUrl (authHeader env) (tweetPayloadJson text (some tid)),
      by simp [hok], rfl⟩, ?_⟩
    intro o
    simp [hok, recentTweetKey, hne, Event.isNet]
  · refine ⟨by simp [hok], ⟨.net tweetUrl (authHeader env) (tweetPayloadJson text (some tid)),
      by simp [hok], rfl⟩, ?_⟩
    intro o
    simp [hok, recentTweetKey, hne, Event.isNet]

/-- Witness for claim C6: a concrete reply while the rate-limit window is open still
reaches the network. -/
theorem C6_witness :
    (postTweet envA storeT "Hi" (some "999")).trace =
      [.get (recentTweetKey envA "Hi") (storeT.get (recentTweetKey envA "Hi")),
       .put (recentTweetKey envA "Hi") envA.nowISO (some 7200),
       .net tweetUrl (authHeader envA) (tweetPayloadJson "Hi" (some "999"))] := by
  exact (C6_reply_bypasses_rate envA storeT "Hi" "999" (by decide)).1

/-- Claim C7: on a non-2xx upstream response, postTweet returns ok = false with
the upstream status and raw body, the final store is exactly the initial
store plus the dedup guard entry (not cleared, nothing else written — in
particular no RateLimitState and no ResponseRecord), and the guard entry
is present in the final store. -/
theorem C7_upstream_failure (env : PostEnv) (store : Store) (text : String) (r : Option String)
    (hrate : r = none → rateLimitRejection env.nowMs (store.get "last_tweet_timestamp") = none)
    (hdup : jsTruthy (store.get (recentTweetKey env text)) = false)
    (hfail : (env.fetch tweetUrl (authHeader env) (tweetPayloadJson text r)).ok = false) :
    (postTweet env store text r).result =
      ⟨false, (env.fetch tweetUrl (authHeader env) (tweetPayloadJson text r)).status,
       (env.fetch tweetUrl (authHeader env) (tweetPayloadJson text r)).body,
       some ("Twitter API error: " ++
         toString (env.fetch tweetUrl (authHeader env) (tweetPayloadJson text r)).status)⟩ ∧
    (postTweet env store text r).store =
      store.put (recentTweetKey env text) env.nowISO (some 7200) ∧
    (postTweet env store text r).store.get (recentTweetKey env text) = some env.nowISO ∧
    (∀ v ttl, Event.put "last_tweet_timestamp" v ttl ∉ (postTweet env store text r).trace) := by
  have hne := (recentKey_ne_lastTs (env.sha256Hex text)).symm
  cases r with
  | none =>
    rw [postTweet_send_none_eq env store text (hrate rfl) hdup]
    refine ⟨by simp [hfail], by simp [hfail], by simp [hfail, Store.get_put_same], ?_⟩
    intro v ttl
    simp [hfail, recentTweetKey, hne]
  | some tid =>
    rw [postTweet_send_reply_eq env store text tid hdup]
    refine ⟨by simp [hfail], by simp [hfail], by simp [hfail, Store.get_put_same], ?_⟩
    intro v ttl
    simp [hfail, recentTweetKey, hne]

/-- Witness for claim C7: a concrete attempt against an upstream that answers 500. -/
theorem C7_witness :
    (postTweet envF [] "Hi" none).result =
      ⟨false, 500, "server error", some "Twitter API error: 500"⟩ ∧
    (postTweet envF [] "Hi" none).store.get (recentTweetKey envF "Hi") =
      some envF.nowISO := by
  have h := C7_upstream_failure envF [] "Hi" none (fun _ => by decide) (by decide) (by decide)
  exact ⟨h.1, h.2.2.1⟩

/-- Claim C8: every attempt that passes both policy checks writes the dedup
guard entry — keyed `recent_tweet_` + the SHA-256 hex fingerprint, with a
7200-second (2-hour) TTL — and the write is issued strictly before the
network call: the trace is some store reads, then the guard put, then the
network call, then whatever follows. -/
theorem C8_guard_written_before_send (env : PostEnv) (store : Store) (text : String)
    (r : Option String)
    (hrate : r = none → rateLimitRejection env.nowMs (store.get "last_tweet_timestamp") = none)
    (hdup : jsTruthy (store.get (recentTweetKey env text)) = false) :
    ∃ pre suffix,
      (postTweet env store text r).trace =
        pre ++ Event.put (recentTweetKey env text) env.nowISO (some 7200) ::
          Event.net tweetUrl (authHeader env) (tweetPayloadJson text r) :: suffix ∧
      (∀ e ∈ pre, e.isNet = false) ∧
      recentTweetKey env text = "recent_tweet_" ++ env.sha256Hex text := by
  cases r with
  | none =>
    rw [postTweet_send_none_eq env store text (hrate rfl) hdup]
    by_cases hok : (env.fetch tweetUrl (authHeader env) (tweetPayloadJson text none)).ok
    · exact ⟨[.get "last_tweet_timestamp" (store.get "last_tweet_timestamp"),
        .get (recentTweetKey env text) (store.get (recentTweetKey env text))],
        [.put "last_tweet_timestamp" (toString env.nowMs) (some 3600)],
        by simp [hok], by simp [Event.isNet], rfl⟩
    · exact ⟨[.get "last_tweet_timestamp" (store.get "last_tweet_timestamp"),
        .get (recentTweetKey env text) (store.get (recentTweetKey env text))], [],
        by simp [hok], by simp [Event.isNet], rfl⟩
  | some tid =>
    rw [postTweet_send_reply_eq env store text tid hdup]
    by_cases hok : (env.fetch tweetUrl (authHeader env) (tweetPayloadJson text (some tid))).ok
    · exact ⟨[.get (recentTweetKey env text) (store.get (recentTweetKey env text))], [],
        by simp [hok], by simp [Event.isNet], rfl⟩
    · exact ⟨[.get (recentTweetKey env text) (store.get (recentTweetKey env text))], [],
        by simp [hok], by simp [Event.isNet], rfl⟩

/-- Witness for claim C8: concrete successful non-reply attempt. -/
theorem C8_witness :
    ∃ pre suffix,
      (postTweet envA [] "Hi" none).trace =
        pre ++ Event.put (recentTweetKey envA "Hi") envA.nowISO (some 7200) ::
          Event.net tweetUrl (authHeader envA) (tweetPayloadJson "Hi" none) :: suffix ∧
      (∀ e ∈ pre, e.isNet = false) ∧
      recentTweetKey envA "Hi" = "recent_tweet_" ++ envA.sha256Hex "Hi" := by
  exact C8_guard_written_before_send envA [] "Hi" none (fun _ => by decide) (by decide)

/-- Claim C10: both local policy rejections — rate-limited and duplicate —
return statusCode 429 in the result even though no network call was made,
so they are distinguishable from an upstream 429 only by the body and
error strings, never by the status code. -/
theorem C10_policy_rejections_status_429 (env : PostEnv) (store : Store) (text : String) :
    (∀ s t, store.get "last_tweet_timestamp" = some s → parseIntJS s = some t →
      env.nowMs - t < thirtyMinutesMs →
      (postTweet env store text none).result.status = 429 ∧
      (postTweet env store text none).result.ok = false ∧
      (postTweet env store text none).result.error = some "Rate limited" ∧
      noNetworkCall (postTweet env store text none) = true) ∧
    (∀ r, jsTruthy (store.get (recentTweetKey env text)) = true →
      (r = none → rateLimitRejection env.nowMs (store.get "last_tweet_timestamp") = none) →
      (postTweet env store text r).result.status = 429 ∧
      (postTweet env store text r).result.ok = false ∧
      (postTweet env store text r).result.error = some "Tweet already posted recently" ∧
      noNetworkCall (postTweet env store text r) = true) := by
  constructor
  · intro s t h1 h2 h3
    rw [postTweet_rate_reject_eq env store text _
      (by rw [h1]; exact rateLimitRejection_fires env.nowMs s t h2 h3)]
    exact ⟨rfl, rfl, rfl, rfl⟩
  · intro r hdup hrate
    cases r with
    | none =>
      rw [postTweet_dup_none_eq env store text (hrate rfl) hdup]
      exact ⟨rfl, rfl, rfl, rfl⟩
    | some tid =>
      rw [postTweet_dup_reply_eq env store text tid hdup]
      exact ⟨rfl, rfl, rfl, rfl⟩

/-- Witness for claim C10: both rejection kinds at concrete inputs carry status 429
with no network call. -/
theorem C10_witness :
    ((postTweet envA storeA "Hello #2" none).result.status = 429 ∧
      noNetworkCall (postTweet envA storeA "Hello #2" none) = true) ∧
    ((postTweet envA storeG "Hello #1" none).result.status = 429 ∧
      noNetworkCall (postTweet envA storeG "Hello #1" none) = true) := by
  have h1 := (C10_policy_rejections_status_429 envA storeA "Hello #2").1 "1000000" 1000000
    (by decide) (by decide) (by decide)
  have h2 := (C10_policy_rejections_status_429 envA storeG "Hello #1").2 none (by decide)
    (fun _ => by decide)
  exact ⟨⟨h1.1, h1.2.2.2⟩, ⟨h2.1, h2.2.2.2⟩⟩


/-- Claim C4, counterexample: after a successful non-reply post, the
`last_tweet_timestamp` entry is written with `expirationTtl: 3600` — a
one-hour expiry — not "no expiry, persisted indefinitely" as claimed. -/
theorem C4_counterexample :
    ((postTweet envA [] "Hello" none).store.find? (fun e => e.key == "last_tweet_timestamp")).map
      (fun e => e.ttl) = some (some 3600) ∧
    Event.put "last_tweet_timestamp" "1001000" (some 3600) ∈
      (postTweet envA [] "Hello" none).trace := by
  decide

/-- Claim C4 as amended: the `last_tweet_timestamp` entry is read before every
non-reply post attempt (first trace event), any write of it happens only
in a non-reply attempt whose result is ok, with the current timestamp as
value and a 3600-second (one-hour) expiry — never on a failed attempt or a
reply — and every successful non-reply attempt does write it. -/
theorem C4_amended_lifecycle (env : PostEnv) (store : Store) (text : String) :
    (∃ rest, (postTweet env store text none).trace =
        Event.get "last_tweet_timestamp" (store.get "last_tweet_timestamp") :: rest) ∧
    (∀ r v ttl, Event.put "last_tweet_timestamp" v ttl ∈ (postTweet env store text r).trace →
        r = none ∧ (postTweet env store text r).result.ok = true ∧
        v = toString env.nowMs ∧ ttl = some 3600) ∧
    ((postTweet env store text none).result.ok = true →
      Event.put "last_tweet_timestamp" (toString env.nowMs) (some 3600) ∈
        (postTweet env store text none).trace) := by
  have hne := (recentKey_ne_lastTs (env.sha256Hex text)).symm
  refine ⟨?_, ?_, ?_⟩
  · cases hrr : rateLimitRejection env.nowMs (store.get "last_tweet_timestamp") with
    | some res =>
      rw [postTweet_rate_reject_eq env store text res hrr]
      exact ⟨[], rfl⟩
    | none =>
      cases hdup : jsTruthy (store.get (recentTweetKey env text)) with
      | true =>
        rw [postTweet_dup_none_eq env store text hrr hdup]
        exact ⟨_, rfl⟩
      | false =>
        rw [postTweet_send_none_eq env store text hrr hdup]
        by_cases hok : (env.fetch tweetUrl (authHeader env) (tweetPayloadJson text none)).ok
        · exact ⟨[Event.get (recentTweetKey env text) (store.get (recentTweetKey env text)),
            Event.put (recentTweetKey env text) env.nowISO (some 7200),
            Event.net tweetUrl (authHeader env) (tweetPayloadJson text none),
            Event.put "last_tweet_timestamp" (toString env.nowMs) (some 3600)], by simp [hok]⟩
        · exact ⟨[Event.get (recentTweetKey env text) (store.get (recentTweetKey env text)),
            Event.put (recentTweetKey env text) env.nowISO (some 7200),
            Event.net tweetUrl (authHeader env) (tweetPayloadJson text none)], by simp [hok]⟩
  · intro r v ttl hmem
    cases r with
    | some tid =>
      cases hdup : jsTruthy (store.get (recentTweetKey env text)) with
      | true =>
        rw [postTweet_dup_reply_eq env store text tid hdup] at hmem
        simp at hmem
      | false =>
        rw [postTweet_send_reply_eq env store text tid hdup] at hmem
        by_cases hok : (env.fetch tweetUrl (authHeader env) (tweetPayloadJson text (some tid))).ok
        · simp [hok, recentTweetKey, hne] at hmem
        · simp [hok, recentTweetKey, hne] at hmem
    | none =>
      cases hrr : rateLimitRejection env.nowMs (store.get "last_tweet_timestamp") with
      | some res =>
        rw [postTweet_rate_reject_eq env store text res hrr] at hmem
        simp at hmem
      | none =>
        cases hdup : jsTruthy (store.get (recentTweetKey env text)) with
        | true =>
          rw [postTweet_dup_none_eq env store text hrr hdup] at hmem
          simp at hmem
        | false =>
          rw [postTweet_send_none_eq env store text hrr hdup] at hmem ⊢
          by_cases hok : (env.fetch tweetUrl (authHeader env) (tweetPayloadJson text none)).ok
          · simp [hok, recentTweetKey, hne] at hmem
            exact ⟨rfl, by simp [hok], hmem.1, hmem.2⟩
          · simp [hok, recentTweetKey, hne] at hmem
  · intro hok
    cases hrr : rateLimitRejection env.nowMs (store.get "last_tweet_timestamp") with
    | some res =>
      rw [postTweet_rate_reject_eq env store text res hrr] at hok
      have hres := rateLimitRejection_ok_false env.nowMs _ res hrr
      simp at hok
      rw [hres] at hok
      exact Bool.noConfusion hok
    | none =>
      cases hdup : jsTruthy (store.get (recentTweetKey env text)) with
      | true =>
        rw [postTweet_dup_none_eq env store text hrr hdup] at hok
        simp at hok
      | false =>
        rw [postTweet_send_none_eq env store text hrr hdup] at hok ⊢
        by_cases hfet : (env.fetch tweetUrl (authHeader env) (tweetPayloadJson text none)).ok
        · simp [hfet]
        · simp [hfet] at hok

/-- Witness for claim C4: a concrete successful non-reply post writes the timestamp
with the one-hour TTL. -/
theorem C4_witness :
    (postTweet envA [] "Hello" none).result.ok = true ∧
    Event.put "last_tweet_timestamp" "1001000" (some 3600) ∈
      (postTweet envA [] "Hello" none).trace := by
  refine ⟨by decide, ?_⟩
  have h := (C4_amended_lifecycle envA [] "Hello").2.2 (by decide)
  rw [show "1001000" = toString envA.nowMs from by decide]
  exact h

theorem sortKeys_eval : sortStrings oauthKeys = oauthKeys := by decide

/-- The canonical parameter string, spelt out: the six OAuth parameters in
sorted key order, percent-encoded and joined as key=value pairs by "&". -/
theorem paramString_spelt (env : PostEnv) :
    paramString env = String.intercalate "&"
      [encodeURIComponent "oauth_consumer_key" ++ "=" ++ encodeURIComponent env.apiKey,
       encodeURIComponent "oauth_nonce" ++ "=" ++ encodeURIComponent env.nonce,
       encodeURIComponent "oauth_signature_method" ++ "=" ++ encodeURIComponent "HMAC-SHA1",
       encodeURIComponent "oauth_timestamp" ++ "=" ++
         encodeURIComponent (toString (env.nowMs.fdiv 1000)),
       encodeURIComponent "oauth_token" ++ "=" ++ encodeURIComponent env.accessToken,
       encodeURIComponent "oauth_version" ++ "=" ++ encodeURIComponent "1.0"] := by
  unfold paramString
  rw [show (oauthParamsList env).map Prod.fst = oauthKeys from rfl, sortKeys_eval]
  rfl

/-- Claim C9: the base string is POST & enc(url) & enc(canonical parameter
string); the canonical parameter string lists the OAuth parameters in
sorted key order joined as key=value pairs; the signing key is
enc(consumer secret) & enc(token secret); the signature is the HMAC-SHA1
of the base string under the signing key, base64; and with credentials,
nonce, timestamp and the HMAC function held fixed, base string, signature
and Authorization header are identical across any two runs. -/
theorem C9_signature_construction (e1 e2 : PostEnv)
    (hk : e1.apiKey = e2.apiKey) (hsec : e1.apiSecret = e2.apiSecret)
    (ht : e1.accessToken = e2.accessToken) (hts : e1.accessSecret = e2.accessSecret)
    (hn : e1.nonce = e2.nonce) (htime : e1.nowMs = e2.nowMs)
    (hh : e1.hmacSha1Base64 = e2.hmacSha1Base64) :
    baseString e1 = String.intercalate "&"
      ["POST", encodeURIComponent tweetUrl, encodeURIComponent (paramString e1)] ∧
    paramString e1 = String.intercalate "&"
      [encodeURIComponent "oauth_consumer_key" ++ "=" ++ encodeURIComponent e1.apiKey,
       encodeURIComponent "oauth_nonce" ++ "=" ++ encodeURIComponent e1.nonce,
       encodeURIComponent "oauth_signature_method" ++ "=" ++ encodeURIComponent "HMAC-SHA1",
       encodeURIComponent "oauth_timestamp" ++ "=" ++
         encodeURIComponent (toString (e1.nowMs.fdiv 1000)),
       encodeURIComponent "oauth_token" ++ "=" ++ encodeURIComponent e1.accessToken,
       encodeURIComponent "oauth_version" ++ "=" ++ encodeURIComponent "1.0"] ∧
    signingKey e1 = encodeURIComponent e1.apiSecret ++ "&" ++ encodeURIComponent e1.accessSecret ∧
    oauthSignature e1 = e1.hmacSha1Base64 (signingKey e1) (baseString e1) ∧
    baseString e1 = baseString e2 ∧
    oauthSignature e1 = oauthSignature e2 ∧
    authHeader e1 = authHeader e2 := by
  refine ⟨rfl, paramString_spelt e1, rfl, rfl, ?_, ?_, ?_⟩
  all_goals
    simp only [baseString, paramString, oauthParamsList, lookupParam, signingKey,
      oauthSignature, authHeader, hk, hsec, ht, hts, hn, htime, hh]

/-- Witness for claim C9: two environments equal on credentials, nonce, timestamp
and HMAC but differing in digest function, clock string and network
produce byte-identical Authorization headers. -/
theorem C9_witness : authHeader envA = authHeader envA2 :=
  (C9_signature_construction envA envA2 rfl rfl rfl rfl rfl rfl rfl).2.2.2.2.2.2

end GptEnduser
